import Mathlib

/-!
Verification development for the EcoRoute ML service
(`src/ml_service/app.py` and `src/ml_service/train_model.py`).

The serving core is the `predict` endpoint of `app.py`: it encodes the
route type, resolves a vehicle profile from `VEHICLE_FACTORS` (defaulting
to the car profile), builds an 8-element feature vector, calls the opaque
regression model, and post-processes the raw `(fuel, co2)` output with
vehicle-class scaling, an energy-mode branch and marine route adjustments.
Python floats are modelled by `ℚ` (every constant in the source is an exact
decimal), Python dicts by association lists, and the two possible result
dict shapes by an inductive type.
-/

/-- Physical profile of a vehicle or vessel: the value type of the
`VEHICLE_FACTORS` dict (`weight`, `co2_factor`, `energy_mode`). -/
structure VehicleProfile where
  weight : ℚ
  co2_factor : ℚ
  energy_mode : String
deriving DecidableEq, Repr

/-- Serving-side registry `VEHICLE_FACTORS` from `app.py` (lines 10-20). -/
def VEHICLE_FACTORS : List (String × VehicleProfile) :=
  [("car",   ⟨1200, 1.0, "fuel"⟩),
   ("van",   ⟨2500, 1.4, "fuel"⟩),
   ("bike",  ⟨200, 0.2, "fuel"⟩),
   ("ev",    ⟨1800, 0.0, "electric"⟩),
   ("cargo_ship", ⟨500000, 8.0, "fuel"⟩),
   ("tanker", ⟨700000, 10.0, "fuel"⟩),
   ("ferry", ⟨100000, 5.0, "fuel"⟩)]

/-- Trainer-side registry `VEHICLE_FACTORS` from `train_model.py` (lines 11-19). -/
def trainVEHICLE_FACTORS : List (String × VehicleProfile) :=
  [("car",   ⟨1200, 1.0, "fuel"⟩),
   ("van",   ⟨2500, 1.4, "fuel"⟩),
   ("bike",  ⟨200, 0.2, "fuel"⟩),
   ("ev",    ⟨1800, 0.0, "electric"⟩),
   ("cargo_ship", ⟨500000, 8.0, "fuel"⟩),
   ("tanker", ⟨700000, 10.0, "fuel"⟩),
   ("ferry", ⟨100000, 5.0, "fuel"⟩)]

/-- Trainer-side route encoding `ROUTE_TYPES` from `train_model.py` (line 21). -/
def ROUTE_TYPES : List (String × Nat) := [("fast", 0), ("eco", 1), ("safe", 2)]

/-- Serving-side route encoding `route_map`, local to `predict` in `app.py`. -/
def route_map : List (String × Nat) := [("fast", 0), ("eco", 1), ("safe", 2)]

/-- `route_map.get(feat.route_type, 0)`: unknown route strings encode as 0. -/
def routeTypeVal (r : String) : Nat := (route_map.lookup r).getD 0

/-- `VEHICLE_FACTORS.get(feat.vehicle, VEHICLE_FACTORS["car"])`: unknown
vehicle identifiers resolve to the car profile. The inner `getD` mirrors
the (always-successful) direct access `VEHICLE_FACTORS["car"]`. -/
def lookupProfile (v : String) : VehicleProfile :=
  (VEHICLE_FACTORS.lookup v).getD
    ((VEHICLE_FACTORS.lookup "car").getD ⟨1200, 1.0, "fuel"⟩)

/-- The keys of the vehicle registry. -/
def registryKeys : List String := VEHICLE_FACTORS.map Prod.fst

/-- Input record: the pydantic `Features` model of `app.py` (lines 22-31),
with the same defaults. -/
structure Features where
  distance_km : ℚ
  elevation_gain_m : ℚ := 0
  avg_speed_kph : ℚ := 50
  turns : ℤ := 0
  humps : ℤ := 0
  weight_kg : ℚ := 1000
  traffic_index : ℚ := 1
  route_type : String := "fast"
  vehicle : String := "car"
deriving DecidableEq, Repr

/-- The 8-element model input vector `X` built in `predict` (lines 52-61):
fixed order, with the profile weight in position 6 (index 5), never the
caller-supplied `weight_kg`. -/
def vectorize (feat : Features) (base_weight : ℚ) (route_type_val : Nat) : List ℚ :=
  [feat.distance_km, feat.elevation_gain_m, feat.avg_speed_kph,
   (feat.turns : ℚ), (feat.humps : ℚ), base_weight, feat.traffic_index,
   (route_type_val : ℚ)]

/-- A result dict of `predict`: the electric branch returns
`{fuel_l, energy_kwh, co2_kg}`, the fuel branch `{fuel_l, co2_kg}`. -/
inductive PredictOutput where
  | electric (fuel_l energy_kwh co2_kg : ℚ)
  | fuelMode (fuel_l co2_kg : ℚ)
deriving DecidableEq, Repr

/-- The `fuel_l` field of a result dict. -/
def PredictOutput.fuel_l : PredictOutput → ℚ
  | .electric f _ _ => f
  | .fuelMode f _ => f

/-- The `co2_kg` field of a result dict. -/
def PredictOutput.co2_kg : PredictOutput → ℚ
  | .electric _ _ c => c
  | .fuelMode _ c => c

/-- `co2 *= co2_factor` (line 68). -/
def scaledCo2 (p : VehicleProfile) (co2_raw : ℚ) : ℚ := co2_raw * p.co2_factor

/-- `fuel *= max(1.0, co2_factor / 2.0)` (line 69). -/
def scaledFuel (p : VehicleProfile) (fuel_raw : ℚ) : ℚ :=
  fuel_raw * max 1 (p.co2_factor / 2)

/-- The marine vessel list tested at line 82 of `app.py`. -/
def marineVehicles : List String := ["cargo_ship", "tanker", "ferry"]

/-- Post-processing of the raw model output in `predict` (lines 64-95):
vehicle-class scaling, the electric short-circuit, and marine route
adjustments. -/
def adjust (feat : Features) (p : VehicleProfile) (fuel_raw co2_raw : ℚ) :
    PredictOutput :=
  let co2 := scaledCo2 p co2_raw
  let fuel := scaledFuel p fuel_raw
  if p.energy_mode = "electric" then
    .electric 0 (feat.distance_km * 0.2) co2
  else if feat.vehicle ∈ marineVehicles then
    if feat.route_type = "eco" then .fuelMode (fuel * 0.85) (co2 * 0.85)
    else if feat.route_type = "safe" then .fuelMode (fuel * 1.2) (co2 * 1.2)
    else .fuelMode fuel co2
  else .fuelMode fuel co2

/-- The `predict` pipeline with the raw model output supplied directly
(the regressor is an external collaborator). -/
def predictWith (feat : Features) (fuel_raw co2_raw : ℚ) : PredictOutput :=
  adjust feat (lookupProfile feat.vehicle) fuel_raw co2_raw

/-- Python list indexing `pred[i]`: an IndexError when out of range. -/
def getFloat (l : List ℚ) (i : Nat) : Except String ℚ :=
  match l.get? i with
  | some x => Except.ok x
  | none => Except.error "IndexError"

/-- The full `predict` pipeline: route encoding, profile resolution,
vectorization, call to the model, unpacking of `pred[0], pred[1]`, and the
adjustment chain. -/
def predictE (feat : Features) (model_pred : List ℚ → List ℚ) :
    Except String PredictOutput := do
  let route_type_val := routeTypeVal feat.route_type
  let v := lookupProfile feat.vehicle
  let X := vectorize feat v.weight route_type_val
  let pred := model_pred X
  let fuel ← getFloat pred 0
  let co2 ← getFloat pred 1
  pure (adjust feat v fuel co2)

/-- Claim C1: the adjustment engine computes `co2 = co2_raw * co2_factor` and
`fuel = fuel_raw * max(1, co2_factor / 2)`; for every profile with
`co2_factor ≤ 2` the fuel multiplier is exactly 1, so the scaled fuel equals
the raw fuel estimate. -/
theorem c1_scaling_and_fuel_floor (p : VehicleProfile) (f c : ℚ)
    (h : p.co2_factor ≤ 2) :
    scaledCo2 p c = c * p.co2_factor ∧
    scaledFuel p f = f * max 1 (p.co2_factor / 2) ∧
    scaledFuel p f = f := by
  refine ⟨rfl, rfl, ?_⟩
  have h2 : p.co2_factor / 2 ≤ 1 := by linarith
  simp [scaledFuel, max_eq_left h2]

/-- Witness for C1 at the van profile (co2_factor 1.4 ≤ 2), raw fuel 7. -/
theorem c1_witness :
    (⟨2500, 1.4, "fuel"⟩ : VehicleProfile).co2_factor ≤ 2 ∧
    scaledFuel ⟨2500, 1.4, "fuel"⟩ 7 = 7 :=
  ⟨by norm_num, (c1_scaling_and_fuel_floor ⟨2500, 1.4, "fuel"⟩ 7 3 (by norm_num)).2.2⟩

/-- Claim C2: for every input whose resolved profile is electric, the result is
exactly `{fuel_l: 0, energy_kwh: distance_km * 0.2, co2_kg: co2_raw * co2_factor}`
for every raw output, co2_factor and route_type; marine adjustment is never
reached. -/
theorem c2_electric_short_circuit (feat : Features) (p : VehicleProfile)
    (f c : ℚ) (h : p.energy_mode = "electric") :
    adjust feat p f c =
      .electric 0 (feat.distance_km * 0.2) (c * p.co2_factor) := by
  simp [adjust, h, scaledCo2]

/-- Witness for C2 at the resolved "ev" profile with a safe marine-style route. -/
theorem c2_witness :
    (lookupProfile "ev").energy_mode = "electric" ∧
    adjust { distance_km := 50, vehicle := "ev", route_type := "safe" }
        (lookupProfile "ev") 10 20 =
      .electric 0 (50 * 0.2) (20 * (lookupProfile "ev").co2_factor) :=
  ⟨by decide, c2_electric_short_circuit
      { distance_km := 50, vehicle := "ev", route_type := "safe" }
      (lookupProfile "ev") 10 20 (by decide)⟩

/-- Claim C8: the trainer-side tables equal the serving-side tables:
`VEHICLE_FACTORS` in train_model.py equals `VEHICLE_FACTORS` in app.py, and
`ROUTE_TYPES` equals `route_map`. -/
theorem c8_tables_agree :
    trainVEHICLE_FACTORS = VEHICLE_FACTORS ∧ ROUTE_TYPES = route_map :=
  ⟨rfl, rfl⟩

/-- Claim C6: the vector passed to the regressor has exactly 8 elements, in the
fixed order, with index 5 equal to the resolved profile's reference weight; the
pipeline's result is independent of the caller-supplied `weight_kg`. -/
theorem c6_vector_shape (feat : Features) (p : VehicleProfile) (rv : Nat)
    (m : List ℚ → List ℚ) (w : ℚ) :
    (vectorize feat p.weight rv).length = 8 ∧
    (vectorize feat p.weight rv).get? 5 = some p.weight ∧
    vectorize feat p.weight rv =
      [feat.distance_km, feat.elevation_gain_m, feat.avg_speed_kph,
       (feat.turns : ℚ), (feat.humps : ℚ), p.weight, feat.traffic_index,
       (rv : ℚ)] ∧
    predictE { feat with weight_kg := w } m = predictE feat m :=
  ⟨rfl, rfl, rfl, rfl⟩

/-- Claim C4: for vehicle "cargo_ship" and route_type "eco", a raw predictor
output of (100, 200) yields exactly `{fuel_l: 340, co2_kg: 1360}`
(co2 = 200*8 = 1600, fuel = 100*max(1, 8/2) = 400, both times 0.85). -/
theorem c4_cargo_eco_end_to_end (feat : Features)
    (hv : feat.vehicle = "cargo_ship") (hr : feat.route_type = "eco") :
    predictE feat (fun _ => [100, 200]) = Except.ok (.fuelMode 340 1360) := by
  simp [predictE, getFloat, adjust, lookupProfile, VEHICLE_FACTORS,
        marineVehicles, scaledFuel, scaledCo2, hv, hr, List.lookup,
        Except.bind, Bind.bind, Pure.pure, Except.pure]
  norm_num

/-- Witness for C4 at a concrete cargo_ship eco trip. -/
theorem c4_witness :
    predictE { distance_km := 12, vehicle := "cargo_ship", route_type := "eco" }
        (fun _ => [100, 200]) = Except.ok (.fuelMode 340 1360) :=
  c4_cargo_eco_end_to_end _ rfl rfl

/-- Claim C7: for every input of the declared types (any rational numbers and
any strings), the core computation produces a result and never an error,
assuming the raw predictor returns its two floats. -/
theorem c7_no_exceptions (feat : Features) (m : List ℚ → List ℚ)
    (h : ∀ X, ∃ a b, m X = [a, b]) :
    ∃ out, predictE feat m = Except.ok out := by
  obtain ⟨a, b, hab⟩ := h (vectorize feat (lookupProfile feat.vehicle).weight
    (routeTypeVal feat.route_type))
  exact ⟨adjust feat (lookupProfile feat.vehicle) a b,
    by simp [predictE, hab, getFloat, Except.bind, Bind.bind, Pure.pure,
             Except.pure]⟩

/-- Witness for C7: a trip with negative distance and unknown vehicle/route
strings still yields a result with a two-float stub predictor. -/
theorem c7_witness :
    ∃ out, predictE
        { distance_km := -5, vehicle := "zeppelin", route_type := "scenic" }
        (fun _ => [10, 23]) = Except.ok out :=
  c7_no_exceptions _ _ (fun _ => ⟨10, 23, rfl⟩)

/-- Helper: an identifier outside the registry keys resolves to the car
profile. -/
theorem lookupProfile_of_not_mem {s : String} (h : s ∉ registryKeys) :
    lookupProfile s = lookupProfile "car" := by
  simp only [registryKeys, VEHICLE_FACTORS, List.map_cons, List.map_nil,
    List.mem_cons, List.not_mem_nil, or_false, not_or] at h
  obtain ⟨h1, h2, h3, h4, h5, h6, h7⟩ := h
  have b1 : (s == "car") = false := by simp [h1]
  have b2 : (s == "van") = false := by simp [h2]
  have b3 : (s == "bike") = false := by simp [h3]
  have b4 : (s == "ev") = false := by simp [h4]
  have b5 : (s == "cargo_ship") = false := by simp [h5]
  have b6 : (s == "tanker") = false := by simp [h6]
  have b7 : (s == "ferry") = false := by simp [h7]
  simp [lookupProfile, VEHICLE_FACTORS, List.lookup, b1, b2, b3, b4, b5, b6, b7]

/-- Helper: an unknown route string encodes as 0. -/
theorem routeTypeVal_of_not_mem {s : String} (h : s ∉ ["fast", "eco", "safe"]) :
    routeTypeVal s = 0 := by
  simp only [List.mem_cons, List.not_mem_nil, or_false, not_or] at h
  obtain ⟨h1, h2, h3⟩ := h
  have b1 : (s == "fast") = false := by simp [h1]
  have b2 : (s == "eco") = false := by simp [h2]
  have b3 : (s == "safe") = false := by simp [h3]
  simp [routeTypeVal, route_map, List.lookup, b1, b2, b3]

/-- Claim C5: profile lookup never fails: each of the 7 known identifiers
returns its documented profile and every other string returns the car
profile; route encoding maps fast to 0, eco to 1, safe to 2 and every
unknown string to 0. -/
theorem c5_lookup_total :
    lookupProfile "car" = ⟨1200, 1.0, "fuel"⟩ ∧
    lookupProfile "van" = ⟨2500, 1.4, "fuel"⟩ ∧
    lookupProfile "bike" = ⟨200, 0.2, "fuel"⟩ ∧
    lookupProfile "ev" = ⟨1800, 0.0, "electric"⟩ ∧
    lookupProfile "cargo_ship" = ⟨500000, 8.0, "fuel"⟩ ∧
    lookupProfile "tanker" = ⟨700000, 10.0, "fuel"⟩ ∧
    lookupProfile "ferry" = ⟨100000, 5.0, "fuel"⟩ ∧
    (∀ s : String, s ∉ registryKeys → lookupProfile s = lookupProfile "car") ∧
    routeTypeVal "fast" = 0 ∧ routeTypeVal "eco" = 1 ∧ routeTypeVal "safe" = 2 ∧
    (∀ s : String, s ∉ ["fast", "eco", "safe"] → routeTypeVal s = 0) :=
  ⟨rfl, rfl, rfl, rfl, rfl, rfl, rfl,
   fun _ h => lookupProfile_of_not_mem h, rfl, rfl, rfl,
   fun _ h => routeTypeVal_of_not_mem h⟩

/-- Witness for C5: the unknown vehicle "truck" resolves to the car profile
and the unknown route "scenic" encodes as 0. -/
theorem c5_witness :
    ("truck" ∉ registryKeys ∧ lookupProfile "truck" = lookupProfile "car") ∧
    ("scenic" ∉ ["fast", "eco", "safe"] ∧ routeTypeVal "scenic" = 0) :=
  ⟨⟨by decide, c5_lookup_total.2.2.2.2.2.2.2.1 "truck" (by decide)⟩,
   ⟨by decide, c5_lookup_total.2.2.2.2.2.2.2.2.2.2.2 "scenic" (by decide)⟩⟩

/-- Claim C3: for marine vehicles, route "eco" multiplies both fuel and co2 of
the post-scaling values by 0.85, "safe" by 1.2, and any other route leaves
them unchanged; non-marine vehicles receive no route-based post-scaling. -/
theorem c3_marine_route_scaling :
    (∀ (feat : Features) (f c : ℚ), feat.vehicle ∈ marineVehicles →
      ((feat.route_type = "eco" →
          predictWith feat f c =
            .fuelMode (scaledFuel (lookupProfile feat.vehicle) f * 0.85)
                      (scaledCo2 (lookupProfile feat.vehicle) c * 0.85)) ∧
       (feat.route_type = "safe" →
          predictWith feat f c =
            .fuelMode (scaledFuel (lookupProfile feat.vehicle) f * 1.2)
                      (scaledCo2 (lookupProfile feat.vehicle) c * 1.2)) ∧
       (feat.route_type ≠ "eco" → feat.route_type ≠ "safe" →
          predictWith feat f c =
            .fuelMode (scaledFuel (lookupProfile feat.vehicle) f)
                      (scaledCo2 (lookupProfile feat.vehicle) c)))) ∧
    (∀ (feat : Features) (f c : ℚ) (rt : String), feat.vehicle ∉ marineVehicles →
      predictWith { feat with route_type := rt } f c = predictWith feat f c) := by
  constructor
  · intro feat f c hm
    have hfuel : (lookupProfile feat.vehicle).energy_mode = "fuel" := by
      have hv : feat.vehicle = "cargo_ship" ∨ feat.vehicle = "tanker" ∨
          feat.vehicle = "ferry" := by simpa [marineVehicles] using hm
      rcases hv with h | h | h <;>
        simp [lookupProfile, VEHICLE_FACTORS, List.lookup, h]
    refine ⟨fun hr => ?_, fun hr => ?_, fun h1 h2 => ?_⟩
    · simp [predictWith, adjust, hfuel, hm, hr]
    · simp [predictWith, adjust, hfuel, hm, hr]
    · simp [predictWith, adjust, hfuel, hm, h1, h2]
  · intro feat f c rt hm
    by_cases he : (lookupProfile feat.vehicle).energy_mode = "electric"
    · simp [predictWith, adjust, he]
    · simp [predictWith, adjust, he, hm]

/-- Witness for C3 at a tanker on a safe route. -/
theorem c3_witness :
    predictWith { distance_km := 1, vehicle := "tanker", route_type := "safe" }
        10 20 =
      .fuelMode (scaledFuel (lookupProfile "tanker") 10 * 1.2)
                (scaledCo2 (lookupProfile "tanker") 20 * 1.2) :=
  (c3_marine_route_scaling.1
      { distance_km := 1, vehicle := "tanker", route_type := "safe" } 10 20
      (by decide)).2.1 rfl

/-- Claim C9: an unknown vehicle identifier behaves exactly like "car": the
fallback resolves to the car profile and the marine branch (which tests the
raw string) can never fire, so the whole pipeline gives identical results. -/
theorem c9_unknown_vehicle_like_car (feat : Features) (m : List ℚ → List ℚ)
    (h : feat.vehicle ∉ registryKeys) :
    predictE feat m = predictE { feat with vehicle := "car" } m := by
  have hl := lookupProfile_of_not_mem h
  have hm : feat.vehicle ∉ marineVehicles := by
    intro hmem
    have hv : feat.vehicle = "cargo_ship" ∨ feat.vehicle = "tanker" ∨
        feat.vehicle = "ferry" := by simpa [marineVehicles] using hmem
    rcases hv with h' | h' | h' <;> exact h (by rw [h']; decide)
  have hcar : ¬ ("car" ∈ marineVehicles) := by decide
  have he : (lookupProfile "car").energy_mode = "fuel" := rfl
  simp [predictE, adjust, vectorize, hl, hm, hcar, he]

/-- Witness for C9: the unknown vehicle "hovercraft" gives the same result as
"car" on the same trip. -/
theorem c9_witness :
    predictE { distance_km := 7, vehicle := "hovercraft" } (fun _ => [3, 4]) =
      predictE { distance_km := 7, vehicle := "car" } (fun _ => [3, 4]) :=
  c9_unknown_vehicle_like_car { distance_km := 7, vehicle := "hovercraft" }
    (fun _ => [3, 4]) (by decide)

/-- Claim C10: for every fuel-mode registry vehicle and every route type, a
non-negative raw fuel estimate is never decreased: the final fuel_l is at
least the raw value. -/
theorem c10_fuel_at_least_raw (feat : Features) (f c : ℚ)
    (hv : feat.vehicle ∈ ["car", "van", "bike", "cargo_ship", "tanker", "ferry"])
    (hf : 0 ≤ f) :
    f ≤ (predictWith feat f c).fuel_l := by
  have hv' : feat.vehicle = "car" ∨ feat.vehicle = "van" ∨
      feat.vehicle = "bike" ∨ feat.vehicle = "cargo_ship" ∨
      feat.vehicle = "tanker" ∨ feat.vehicle = "ferry" := by simpa using hv
  rcases hv' with h | h | h | h | h | h
  · simp [predictWith, adjust, lookupProfile, VEHICLE_FACTORS, List.lookup,
      marineVehicles, scaledFuel, PredictOutput.fuel_l, h]
    exact le_mul_of_one_le_right hf le_sup_left
  · simp [predictWith, adjust, lookupProfile, VEHICLE_FACTORS, List.lookup,
      marineVehicles, scaledFuel, PredictOutput.fuel_l, h]
    exact le_mul_of_one_le_right hf le_sup_left
  · simp [predictWith, adjust, lookupProfile, VEHICLE_FACTORS, List.lookup,
      marineVehicles, scaledFuel, PredictOutput.fuel_l, h]
    exact le_mul_of_one_le_right hf le_sup_left
  · have h4 : (1 : ℚ) ⊔ 8.0 / 2 = 4 := by rw [max_def]; norm_num
    by_cases h1 : feat.route_type = "eco"
    · simp [predictWith, adjust, lookupProfile, VEHICLE_FACTORS, List.lookup,
        marineVehicles, scaledFuel, PredictOutput.fuel_l, h, h1]
      rw [h4]; nlinarith
    · by_cases h2 : feat.route_type = "safe"
      · simp [predictWith, adjust, lookupProfile, VEHICLE_FACTORS, List.lookup,
          marineVehicles, scaledFuel, PredictOutput.fuel_l, h, h1, h2]
        rw [h4]; nlinarith
      · simp [predictWith, adjust, lookupProfile, VEHICLE_FACTORS, List.lookup,
          marineVehicles, scaledFuel, PredictOutput.fuel_l, h, h1, h2]
        rw [h4]; nlinarith
  · have h4 : (1 : ℚ) ⊔ 10.0 / 2 = 5 := by rw [max_def]; norm_num
    by_cases h1 : feat.route_type = "eco"
    · simp [predictWith, adjust, lookupProfile, VEHICLE_FACTORS, List.lookup,
        marineVehicles, scaledFuel, PredictOutput.fuel_l, h, h1]
      rw [h4]; nlinarith
    · by_cases h2 : feat.route_type = "safe"
      · simp [predictWith, adjust, lookupProfile, VEHICLE_FACTORS, List.lookup,
          marineVehicles, scaledFuel, PredictOutput.fuel_l, h, h1, h2]
        rw [h4]; nlinarith
      · simp [predictWith, adjust, lookupProfile, VEHICLE_FACTORS, List.lookup,
          marineVehicles, scaledFuel, PredictOutput.fuel_l, h, h1, h2]
        rw [h4]; nlinarith
  · have h4 : (1 : ℚ) ⊔ 5.0 / 2 = 5 / 2 := by rw [max_def]; norm_num
    by_cases h1 : feat.route_type = "eco"
    · simp [predictWith, adjust, lookupProfile, VEHICLE_FACTORS, List.lookup,
        marineVehicles, scaledFuel, PredictOutput.fuel_l, h, h1]
      rw [h4]; nlinarith
    · by_cases h2 : feat.route_type = "safe"
      · simp [predictWith, adjust, lookupProfile, VEHICLE_FACTORS, List.lookup,
          marineVehicles, scaledFuel, PredictOutput.fuel_l, h, h1, h2]
        rw [h4]; nlinarith
      · simp [predictWith, adjust, lookupProfile, VEHICLE_FACTORS, List.lookup,
          marineVehicles, scaledFuel, PredictOutput.fuel_l, h, h1, h2]
        rw [h4]; nlinarith

/-- Witness for C10: a ferry on an eco route with raw fuel 3 ends at least 3. -/
theorem c10_witness :
    (3 : ℚ) ≤ (predictWith
        { distance_km := 2, vehicle := "ferry", route_type := "eco" } 3 5).fuel_l :=
  c10_fuel_at_least_raw
    { distance_km := 2, vehicle := "ferry", route_type := "eco" } 3 5
    (by decide) (by norm_num)
